import Mathlib

/-!
Verification of the vehicle pre-inspection analysis pipeline
(`backend/analysis/*.py`) against its natural-language specification.

The Python modules are shallowly embedded in Lean.  Pure repository logic
(threshold comparisons, clamping, aggregation, list bookkeeping, string
assembly) is translated literally; calls into external libraries
(OpenCV filters, numpy FFT/percentile, the HTTP client, ffmpeg, the YOLO
model) are modelled as fields of an explicit environment record, since
their numeric output is data the repository merely consumes.  Python
floats are modelled as exact rationals (`ℚ`); Python `int` as `ℤ`/`ℕ`.
-/

/-- `np.clip(x, 0.0, 1.0)`. -/
def clip01 (q : ℚ) : ℚ := max 0 (min 1 q)

/-- `np.mean` over a non-empty 1-D array (callers guard emptiness). -/
def listMean (xs : List ℚ) : ℚ := xs.sum / (xs.length : ℚ)

/-- Stable descending insertion by a rational key: a new element goes after
all earlier elements whose key is `≥` its own, which reproduces the ordering
of Python's stable `sorted(..., key=k, reverse=True)`. -/
def insertDescBy (key : α → ℚ) (x : α) : List α → List α
  | [] => [x]
  | y :: ys => if key y < key x then x :: y :: ys else y :: insertDescBy key x ys

/-- Stable descending sort by a rational key (Python `sorted(..., reverse=True)`). -/
def sortDescBy (key : α → ℚ) : List α → List α
  | [] => []
  | x :: xs => insertDescBy key x (sortDescBy key xs)

/-- Whether `pat` occurs at the start of `s` (character lists). -/
def charsStart : List Char → List Char → Bool
  | [], _ => true
  | _ :: _, [] => false
  | a :: as, b :: bs => a == b && charsStart as bs

/-- Whether `pat` occurs somewhere inside `s` (character lists). -/
def charsHasSub (pat : List Char) : List Char → Bool
  | [] => pat.isEmpty
  | b :: rest => charsStart pat (b :: rest) || charsHasSub pat rest

/-- Python's `sub in s` substring test. -/
def strHasSub (s sub : String) : Bool := charsHasSub sub.data s.data

/-! ## Capture quality gate — `backend/analysis/video_quality.py` -/

/-- An abstract decoded video frame (pixel content is consumed only through
the OpenCV capabilities of `VQEnv`). -/
structure VFrame where
  idx : ℕ
deriving DecidableEq

/-- Result of `cv2.VideoCapture` when the file opens: stream metadata plus the
sequentially decodable frames. -/
structure VQCap where
  fps : ℚ
  frame_count : ℤ
  width : ℤ
  height : ℤ
  frames : List VFrame
deriving DecidableEq

/-- Environment for `video_quality.py`: the filesystem, the video decoder and
the OpenCV/numpy per-frame measurements the module consumes. -/
structure VQEnv where
  fileExists : String → Bool
  openVideo : String → Option VQCap
  /-- `cv2.Laplacian(gray, CV_64F).var()` of a frame. -/
  lapVar : VFrame → ℚ
  /-- `np.mean(gray)` of a frame. -/
  grayMean : VFrame → ℚ
  /-- Sparse-optical-flow statistics between two consecutive sampled frames:
  `some (dominant, median_magnitude)`, or `none` when no/too few features track
  (mirrors the `prev_pts is None` / `len(good_prev) < 10` skips). -/
  flow : VFrame → VFrame → Option (ℚ × ℚ)
  /-- `np.percentile(arr, p)` on a non-empty array. -/
  npPercentile : List ℚ → ℚ → ℚ

/-- `_percentile`: numpy percentile guarded by the empty-list check. -/
def percentileOf (env : VQEnv) (arr : List ℚ) (p : ℚ) : ℚ :=
  if arr.isEmpty then 0 else env.npPercentile arr p

/-- The frames kept by a `while cap.read()` loop that skips indices with
`idx % sample_stride != 0` and stops after `max_samples` kept frames. -/
def sampleStride (stride maxS : ℕ) (fs : List VFrame) : List VFrame :=
  ((fs.enum.filter (fun p => p.1 % stride == 0)).map Prod.snd).take maxS

/-- `_compute_shake_and_motion`: mean dominant motion and mean median motion
over consecutive sampled frame pairs; `(0, 0)` when no pair yields flow. -/
def compute_shake_and_motion (env : VQEnv) (cap : VQCap) (stride maxS : ℕ) : ℚ × ℚ :=
  let sampled := sampleStride stride maxS cap.frames
  let vals := (sampled.zip sampled.tail).filterMap (fun ab => env.flow ab.1 ab.2)
  if vals.isEmpty then (0, 0)
  else (listMean (vals.map Prod.fst), listMean (vals.map Prod.snd))

/-- `VideoQualityResult` dataclass of `video_quality.py`. -/
structure VideoQualityResult where
  ok : Bool
  message : String
  duration_sec : ℚ
  fps : ℚ
  width : ℤ
  height : ℤ
  frame_count : ℤ
  blur_score_mean : ℚ
  blur_score_p10 : ℚ
  exposure_mean : ℚ
  exposure_p10 : ℚ
  exposure_p90 : ℚ
  shake_score : ℚ
  motion_score : ℚ
  too_short : Bool
  too_low_res : Bool
  too_dark : Bool
  too_bright : Bool
  too_blurry : Bool
  too_shaky : Bool
  hints : List String
deriving DecidableEq

/-- `analyze_video_quality(video_path, min_duration_sec=10, min_width=720,
min_height=720, sample_stride=7, max_samples=140)`.  The two defensive early
returns (missing file, unopenable file) and the metric/flag/hint computation
are translated branch for branch from the source. -/
def analyze_video_quality (env : VQEnv) (video_path : String)
    (min_duration_sec : ℚ) (min_width min_height : ℤ)
    (sample_stride maxSamples : ℕ) : VideoQualityResult :=
  if env.fileExists video_path = false then
    { ok := false, message := "Video bulunamadı.",
      duration_sec := 0, fps := 0, width := 0, height := 0, frame_count := 0,
      blur_score_mean := 0, blur_score_p10 := 0,
      exposure_mean := 0, exposure_p10 := 0, exposure_p90 := 0,
      shake_score := 0, motion_score := 0,
      too_short := true, too_low_res := true,
      too_dark := false, too_bright := false, too_blurry := false, too_shaky := false,
      hints := ["Video dosyası eksik ya da yol hatalı."] }
  else
    match env.openVideo video_path with
    | none =>
      { ok := false, message := "Video açılamadı (codec/format sorunu olabilir).",
        duration_sec := 0, fps := 0, width := 0, height := 0, frame_count := 0,
        blur_score_mean := 0, blur_score_p10 := 0,
        exposure_mean := 0, exposure_p10 := 0, exposure_p90 := 0,
        shake_score := 0, motion_score := 0,
        too_short := true, too_low_res := true,
        too_dark := false, too_bright := false, too_blurry := false, too_shaky := false,
        hints := ["Videoyu farklı bir cihazla / tarayıcıyla tekrar çekmeyi deneyin."] }
    | some cap =>
      let fps := cap.fps
      let frame_count := cap.frame_count
      let width := cap.width
      let height := cap.height
      let duration : ℚ :=
        if fps ≠ 0 ∧ frame_count ≠ 0 then (frame_count : ℚ) / fps else 0
      let sampled := sampleStride sample_stride maxSamples cap.frames
      let blur_scores := sampled.map env.lapVar
      let exposures := sampled.map env.grayMean
      let sm := compute_shake_and_motion env cap sample_stride maxSamples
      let shake_score := sm.1
      let motion_score := sm.2
      let blur_mean := if blur_scores.isEmpty then 0 else listMean blur_scores
      let blur_p10 := percentileOf env blur_scores 10
      let exp_mean := if exposures.isEmpty then 0 else listMean exposures
      let exp_p10 := percentileOf env exposures 10
      let exp_p90 := percentileOf env exposures 90
      let too_short := decide (duration < min_duration_sec)
      let too_low_res := decide (width < min_width) || decide (height < min_height)
      let too_dark := decide (exp_mean < 60) || decide (exp_p90 < 90)
      let too_bright := decide (200 < exp_mean) || decide (160 < exp_p10)
      let too_blurry := decide (blur_mean < 80) || decide (blur_p10 < 40)
      let too_shaky := decide ((8 : ℚ) < shake_score)
      let hints : List String :=
        (if too_short then
          ["Video çok kısa. En az " ++ toString min_duration_sec.floor ++ " sn önerilir."] else [])
        ++ (if too_low_res then
          ["Çözünürlük düşük. Daha yakından ve net çekin (mümkünse 1080p)."] else [])
        ++ (if too_dark then
          ["Görüntü karanlık. Daha aydınlık ortamda veya flaş/ışıkla çekin."] else [])
        ++ (if too_bright then
          ["Görüntü aşırı parlak. Gölge/karşı ışıkta çekmeyin, pozlamayı düşürün."] else [])
        ++ (if too_blurry then
          ["Görüntü bulanık. Lensi temizleyin, 1–2 sn sabitleyip sonra yavaş hareket edin."] else [])
        ++ (if too_shaky then
          ["Kamera çok sallanıyor. İki elle tutun, yavaş ve sabit hareket edin."] else [])
      let ok := !(too_short || too_low_res || (too_dark && too_bright) || too_blurry)
      { ok := ok,
        message := if ok then "Video kalitesi yeterli."
                   else "Video kalitesi analiz doğruluğunu düşürebilir.",
        duration_sec := duration, fps := fps, width := width, height := height,
        frame_count := frame_count,
        blur_score_mean := blur_mean, blur_score_p10 := blur_p10,
        exposure_mean := exp_mean, exposure_p10 := exp_p10, exposure_p90 := exp_p90,
        shake_score := shake_score, motion_score := motion_score,
        too_short := too_short, too_low_res := too_low_res,
        too_dark := too_dark, too_bright := too_bright,
        too_blurry := too_blurry, too_shaky := too_shaky,
        hints := hints }

/-- A filesystem with no files and no openable videos (missing-file case). -/
def vqEnvMissing : VQEnv :=
  { fileExists := fun _ => false, openVideo := fun _ => none,
    lapVar := fun _ => 0, grayMean := fun _ => 0,
    flow := fun _ _ => none, npPercentile := fun _ _ => 0 }

/-- A filesystem where the file exists but `cv2.VideoCapture` cannot open it. -/
def vqEnvUnopenable : VQEnv :=
  { fileExists := fun _ => true, openVideo := fun _ => none,
    lapVar := fun _ => 0, grayMean := fun _ => 0,
    flow := fun _ _ => none, npPercentile := fun _ _ => 0 }

/-- C3, counterexample.  For a nonexistent video path `analyze_video_quality`
does return `ok = false`, but `too_dark` (likewise `too_bright`, `too_blurry`,
`too_shaky`) is `false`, not `true`: the claim that all six defensive flags are
set true on an unreadable video is false on the code. -/
theorem C3_counterexample :
    (analyze_video_quality vqEnvMissing "missing.mp4" 10 720 720 7 140).ok = false ∧
    (analyze_video_quality vqEnvMissing "missing.mp4" 10 720 720 7 140).too_short = true ∧
    (analyze_video_quality vqEnvMissing "missing.mp4" 10 720 720 7 140).too_dark = false ∧
    (analyze_video_quality vqEnvMissing "missing.mp4" 10 720 720 7 140).too_bright = false ∧
    (analyze_video_quality vqEnvMissing "missing.mp4" 10 720 720 7 140).too_blurry = false ∧
    (analyze_video_quality vqEnvMissing "missing.mp4" 10 720 720 7 140).too_shaky = false := by
  decide

/-- C3, amended.  For a video path that does not exist or that cannot be
opened, `analyze_video_quality` returns `ok = false` with the two data-volume
flags `too_short` and `too_low_res` set true, the four measurement flags
(`too_dark`, `too_bright`, `too_blurry`, `too_shaky`) set false, and a
non-empty hint list; it never raises (the embedding is a total function). -/
theorem C3_unreadable_video_flags (env : VQEnv) (p : String)
    (mind : ℚ) (minw minh : ℤ) (stride maxS : ℕ)
    (h : env.fileExists p = false ∨ env.openVideo p = none) :
    (analyze_video_quality env p mind minw minh stride maxS).ok = false ∧
    (analyze_video_quality env p mind minw minh stride maxS).too_short = true ∧
    (analyze_video_quality env p mind minw minh stride maxS).too_low_res = true ∧
    (analyze_video_quality env p mind minw minh stride maxS).too_dark = false ∧
    (analyze_video_quality env p mind minw minh stride maxS).too_bright = false ∧
    (analyze_video_quality env p mind minw minh stride maxS).too_blurry = false ∧
    (analyze_video_quality env p mind minw minh stride maxS).too_shaky = false ∧
    (analyze_video_quality env p mind minw minh stride maxS).hints ≠ [] := by
  rcases h with h | h
  · simp [analyze_video_quality, h]
  · by_cases hf : env.fileExists p = false
    · simp [analyze_video_quality, hf]
    · simp [analyze_video_quality, hf, h]

/-- C3, witness for the amended theorem at the missing-file environment. -/
theorem C3_unreadable_video_flags_witness :
    (vqEnvMissing.fileExists "missing.mp4" = false ∨
      vqEnvMissing.openVideo "missing.mp4" = none) ∧
    ((analyze_video_quality vqEnvMissing "missing.mp4" 10 720 720 7 140).ok = false ∧
      (analyze_video_quality vqEnvMissing "missing.mp4" 10 720 720 7 140).too_short = true ∧
      (analyze_video_quality vqEnvMissing "missing.mp4" 10 720 720 7 140).too_low_res = true ∧
      (analyze_video_quality vqEnvMissing "missing.mp4" 10 720 720 7 140).too_dark = false ∧
      (analyze_video_quality vqEnvMissing "missing.mp4" 10 720 720 7 140).too_bright = false ∧
      (analyze_video_quality vqEnvMissing "missing.mp4" 10 720 720 7 140).too_blurry = false ∧
      (analyze_video_quality vqEnvMissing "missing.mp4" 10 720 720 7 140).too_shaky = false ∧
      (analyze_video_quality vqEnvMissing "missing.mp4" 10 720 720 7 140).hints ≠ []) :=
  ⟨Or.inl rfl,
    C3_unreadable_video_flags vqEnvMissing "missing.mp4" 10 720 720 7 140 (Or.inl rfl)⟩

/-- C10.  For a readable video (the file exists and opens) the overall `ok`
flag equals `!(too_short || too_low_res || (too_dark && too_bright) ||
too_blurry)` computed from the returned flags: `ok` never depends on
`too_shaky`, and `too_dark`/`too_bright` lower it only jointly. -/
theorem C10_quality_ok_characterization (env : VQEnv) (p : String)
    (mind : ℚ) (minw minh : ℤ) (stride maxS : ℕ) (cap : VQCap)
    (hf : env.fileExists p = true) (ho : env.openVideo p = some cap) :
    (analyze_video_quality env p mind minw minh stride maxS).ok =
      !((analyze_video_quality env p mind minw minh stride maxS).too_short ||
        (analyze_video_quality env p mind minw minh stride maxS).too_low_res ||
        ((analyze_video_quality env p mind minw minh stride maxS).too_dark &&
          (analyze_video_quality env p mind minw minh stride maxS).too_bright) ||
        (analyze_video_quality env p mind minw minh stride maxS).too_blurry) := by
  simp [analyze_video_quality, hf, ho]

/-- A readable, sharp, well-lit, long-enough but very shaky video: every
frame tracks with dominant motion 10 px. -/
def vqCapShaky : VQCap :=
  { fps := 30, frame_count := 600, width := 1080, height := 1080,
    frames := (List.range 8).map VFrame.mk }

/-- Environment decoding `vqCapShaky`, with sharp bright measurements. -/
def vqEnvShaky : VQEnv :=
  { fileExists := fun _ => true, openVideo := fun _ => some vqCapShaky,
    lapVar := fun _ => 1000, grayMean := fun _ => 120,
    flow := fun _ _ => some (10, 10), npPercentile := fun _ _ => 100 }

/-- C10, witness: at a concrete readable video the characterization holds, and
indeed this video is reported `ok = true` while `too_shaky = true`. -/
theorem C10_quality_ok_characterization_witness :
    (vqEnvShaky.fileExists "v.mp4" = true ∧
      vqEnvShaky.openVideo "v.mp4" = some vqCapShaky) ∧
    ((analyze_video_quality vqEnvShaky "v.mp4" 10 720 720 7 140).ok =
      !((analyze_video_quality vqEnvShaky "v.mp4" 10 720 720 7 140).too_short ||
        (analyze_video_quality vqEnvShaky "v.mp4" 10 720 720 7 140).too_low_res ||
        ((analyze_video_quality vqEnvShaky "v.mp4" 10 720 720 7 140).too_dark &&
          (analyze_video_quality vqEnvShaky "v.mp4" 10 720 720 7 140).too_bright) ||
        (analyze_video_quality vqEnvShaky "v.mp4" 10 720 720 7 140).too_blurry)) ∧
    (analyze_video_quality vqEnvShaky "v.mp4" 10 720 720 7 140).too_shaky = true ∧
    (analyze_video_quality vqEnvShaky "v.mp4" 10 720 720 7 140).ok = true :=
  ⟨⟨rfl, rfl⟩,
    C10_quality_ok_characterization vqEnvShaky "v.mp4" 10 720 720 7 140 vqCapShaky rfl rfl,
    by with_unfolding_all decide, by with_unfolding_all decide⟩

/-! ## Coverage estimator — `backend/analysis/coverage_check.py` -/

/-- A single-channel (grayscale) image: dimensions plus pixel values. -/
structure CovMat where
  h : ℕ
  w : ℕ
  px : ℕ → ℕ → ℕ

/-- Environment for `coverage_check.py`: the filesystem plus the OpenCV
filters the module consumes.  `imread` bundles `cv2.imread` with the
deterministic `cv2.cvtColor(..., COLOR_BGR2GRAY)` that immediately follows it
(`none` models a frame `cv2.imread` fails to decode); `gblur` is
`cv2.GaussianBlur(gray, (5, 5), 0)` and `medianBlur` is
`cv2.medianBlur(th, 5)`. -/
structure CovEnv where
  fileExists : String → Bool
  imread : String → Option CovMat
  gblur : CovMat → CovMat
  medianBlur : CovMat → CovMat

/-- `cv2.absdiff(prev, gray)`: pointwise absolute difference. -/
def absdiffMat (a b : CovMat) : CovMat :=
  { h := a.h, w := a.w,
    px := fun i j => max (a.px i j) (b.px i j) - min (a.px i j) (b.px i j) }

/-- `cv2.threshold(diff, 18, 255, THRESH_BINARY)` (second component). -/
def threshMat (m : CovMat) : CovMat :=
  { h := m.h, w := m.w, px := fun i j => if 18 < m.px i j then 255 else 0 }

/-- Whether grid cell `(r, c)` registers motion in the denoised mask `m`:
the source slices `th[y1:y2, x1:x2]` (last row/column extends to the image
border), skips empty cells, and marks the cell when the active-pixel fraction
`np.mean(cell > 0)` exceeds `0.03`. -/
def cellActive (m : CovMat) (grid r c : ℕ) : Bool :=
  let gh := m.h / grid
  let gw := m.w / grid
  let y1 := r * gh
  let y2 := if r < grid - 1 then (r + 1) * gh else m.h
  let x1 := c * gw
  let x2 := if c < grid - 1 then (c + 1) * gw else m.w
  let size := (y2 - y1) * (x2 - x1)
  let cnt := ((List.range (y2 - y1)).map (fun i =>
    ((List.range (x2 - x1)).filter (fun j => 0 < m.px (y1 + i) (x1 + j))).length)).sum
  if size = 0 then false else decide ((3 : ℚ) / 100 < (cnt : ℚ) / (size : ℚ))

/-- The grayscale, Gaussian-blurred frames that decode (`imread` failures are
skipped by the `if img is None: continue` in the source loop). -/
def covGrays (env : CovEnv) (paths : List String) : List CovMat :=
  paths.filterMap (fun p => (env.imread p).map env.gblur)

/-- The denoised binary motion masks of all consecutive decoded frame pairs. -/
def covThs (env : CovEnv) (paths : List String) : List CovMat :=
  let grays := covGrays env paths
  (grays.zip grays.tail).map
    (fun ab => env.medianBlur (threshMat (absdiffMat ab.1 ab.2)))

/-- The set of grid cells visited by at least one frame pair (the source's
`visited[r, c] += 1.0` accumulation, read back through `visited > 0`). -/
def covVisited (ths : List CovMat) (grid : ℕ) : Finset (ℕ × ℕ) :=
  (Finset.range grid ×ˢ Finset.range grid).filter
    (fun rc => (ths.any (fun t => cellActive t grid rc.1 rc.2)) = true)

/-- Result dictionary of `estimate_coverage`. -/
structure CoverageResult where
  ok : Bool
  coverage_ratio : ℚ
  message : String
  hints : List String
deriving DecidableEq

/-- `estimate_coverage(frame_paths, grid=6)`: existence filter, the `< 6`
frame guard, the zero-visit conservative floor `0.20`, and the tiered hints,
translated branch for branch from the source. -/
def estimate_coverage (env : CovEnv) (frame_paths : List String) (grid : ℕ) :
    CoverageResult :=
  let fpaths := frame_paths.filter (fun p => env.fileExists p)
  if fpaths.length < 6 then
    { ok := false, coverage_ratio := 0,
      message := "Kapsama analizi için yeterli frame yok.",
      hints := ["Aracı daha geniş açıyla ve çevresini dolaşarak çekin."] }
  else
    let V := covVisited (covThs env fpaths) grid
    if V.card = 0 then
      { ok := true, coverage_ratio := 1/5,
        message := "Kapsama düşük görünüyor.",
        hints := ["Aracın etrafında dolaşarak 360° çekim yapın, her paneli ayrı ayrı gösterin."] }
    else
      let ratio := (V.card : ℚ) / ((grid * grid : ℕ) : ℚ)
      { ok := true, coverage_ratio := ratio,
        message := "Kapsama analizi tamam.",
        hints :=
          if ratio < 45/100 then
            ["Kapsama düşük: Aracın ön/yan/arka panellerini ayrı ayrı gösterin (360°).",
             "Çok hızlı geçmeyin: her panelde 1–2 sn bekleyin."]
          else if ratio < 65/100 then
            ["Kapsama orta: Çamurluklar, kapı altları, tampon köşeleri ve tavanı da gösterin."]
          else
            ["Kapsama iyi: Analiz doğruluğu için yeterli görüntü var."] }

/-- An all-zero 6×6 grayscale frame (any constant frame behaves the same). -/
def covMatZero : CovMat := { h := 6, w := 6, px := fun _ _ => 0 }

/-- Environment in which every path decodes to the same pixel-identical frame;
Gaussian and median blur act as the identity, which is exactly their behaviour
on a constant image resp. an all-zero mask. -/
def covEnvIdentical : CovEnv :=
  { fileExists := fun _ => true, imread := fun _ => some covMatZero,
    gblur := id, medianBlur := id }

/-- Six copies of the same frame. -/
def covPathsIdentical : List String := ["f1", "f2", "f3", "f4", "f5", "f6"]

/-- C4, counterexample.  Six pixel-identical frames produce zero detected
motion (no cell is ever visited), yet `estimate_coverage` returns the fixed
conservative floor `coverage_ratio = 0.20` — not a value approximately 0. -/
theorem C4_counterexample :
    covVisited (covThs covEnvIdentical covPathsIdentical) 6 = ∅ ∧
    (estimate_coverage covEnvIdentical covPathsIdentical 6).coverage_ratio = 1/5 ∧
    ¬ (estimate_coverage covEnvIdentical covPathsIdentical 6).coverage_ratio < 1/10 := by
  with_unfolding_all decide

/-- C4, amended.  The returned `coverage_ratio` always lies in `[0, 1]`, and
whenever at least 6 frames exist but no grid cell registers motion in any
frame pair (as happens for a pixel-identical repeated frame, whose difference
mask is all zero before and after denoising), the result is the fixed
conservative floor `coverage_ratio = 0.20`, not approximately 0. -/
theorem C4_coverage_range_and_floor (env : CovEnv) (frame_paths : List String)
    (grid : ℕ) (hg : 0 < grid) :
    (0 ≤ (estimate_coverage env frame_paths grid).coverage_ratio ∧
      (estimate_coverage env frame_paths grid).coverage_ratio ≤ 1) ∧
    (6 ≤ (frame_paths.filter (fun p => env.fileExists p)).length →
      covVisited (covThs env (frame_paths.filter (fun p => env.fileExists p))) grid = ∅ →
      (estimate_coverage env frame_paths grid).coverage_ratio = 1/5) := by
  constructor
  · by_cases hlen : (frame_paths.filter (fun p => env.fileExists p)).length < 6
    · simp [estimate_coverage, hlen]
    · by_cases hcard :
        (covVisited (covThs env (frame_paths.filter (fun p => env.fileExists p))) grid).card = 0
      · simp [estimate_coverage, hlen, hcard]
        norm_num
      · set V := covVisited (covThs env (frame_paths.filter (fun p => env.fileExists p))) grid
          with hV
        have hsub : V ⊆ Finset.range grid ×ˢ Finset.range grid := by
          rw [hV]; exact Finset.filter_subset _ _
        have hcardle : V.card ≤ grid * grid := by
          have := Finset.card_le_card hsub
          simpa [Finset.card_range] using this
        have hpos : (0 : ℚ) < ((grid * grid : ℕ) : ℚ) := by
          have : 0 < grid * grid := Nat.mul_pos hg hg
          exact_mod_cast this
        have hres : (estimate_coverage env frame_paths grid).coverage_ratio =
            (V.card : ℚ) / ((grid * grid : ℕ) : ℚ) := by
          simp [estimate_coverage, hlen, hcard, hV]
        rw [hres]
        constructor
        · positivity
        · rw [div_le_one hpos]
          exact_mod_cast hcardle
  · intro h6 hempty
    have hlen : ¬ (frame_paths.filter (fun p => env.fileExists p)).length < 6 := by omega
    have hcard :
        (covVisited (covThs env (frame_paths.filter (fun p => env.fileExists p))) grid).card = 0 := by
      rw [hempty]; rfl
    simp [estimate_coverage, hlen, hcard]

/-- C4, witness for the amended theorem at the identical-frame environment. -/
theorem C4_coverage_range_and_floor_witness :
    (0 < 6 ∧
      6 ≤ (covPathsIdentical.filter (fun p => covEnvIdentical.fileExists p)).length) ∧
    ((0 ≤ (estimate_coverage covEnvIdentical covPathsIdentical 6).coverage_ratio ∧
      (estimate_coverage covEnvIdentical covPathsIdentical 6).coverage_ratio ≤ 1) ∧
    (6 ≤ (covPathsIdentical.filter (fun p => covEnvIdentical.fileExists p)).length →
      covVisited (covThs covEnvIdentical
        (covPathsIdentical.filter (fun p => covEnvIdentical.fileExists p))) 6 = ∅ →
      (estimate_coverage covEnvIdentical covPathsIdentical 6).coverage_ratio = 1/5)) :=
  ⟨⟨by decide, by decide⟩,
    C4_coverage_range_and_floor covEnvIdentical covPathsIdentical 6 (by decide)⟩

/-! ## Damage inference engine — `backend/analysis/damage_pipeline.py`
and `backend/analysis/live_yolo.py` -/

/-- An abstract decoded BGR frame: its dimensions plus an identity tag; pixel
content is consumed only through the OpenCV statistics of `DmgEnv`. -/
structure DImg where
  h : ℕ
  w : ℕ
  tag : ℕ
deriving DecidableEq

/-- One YOLO detection as produced by `YoloDetector.predict`. -/
structure DDet where
  label : String
  conf : ℚ
  box : List ℚ
deriving DecidableEq

/-- Environment for `damage_pipeline.py`: filesystem, image decoder, the
OpenCV statistics consumed by `_heuristic_damage_signals`, and the optional
detector.  `detectorFor mp` is `some predict` when `YoloDetector(mp)`
constructs successfully and `none` when construction raises (ultralytics
missing, model file missing, or load failure). -/
structure DmgEnv where
  fileExists : String → Bool
  imread : String → Option DImg
  /-- `np.mean(cv2.Canny(gray, 60, 160) > 0)`. -/
  edgeDensity : DImg → ℚ
  /-- `cv2.Laplacian(gray, CV_64F).var()`. -/
  lapVar : DImg → ℚ
  /-- `np.std(hsv[:, :, 1])`. -/
  satStd : DImg → ℚ
  /-- `np.std(hsv[:, :, 2])`. -/
  valStd : DImg → ℚ
  detectorFor : String → Option (String → ℚ → ℚ → List DDet)

/-- The three per-frame heuristic signals. -/
structure Signals where
  scratch_like : ℚ
  dent_like : ℚ
  repaint_like : ℚ
deriving DecidableEq

/-- `_heuristic_damage_signals`: the degenerate-size guard and the three
rescaled-and-clamped signal formulas, translated from the source. -/
def heuristic_damage_signals (env : DmgEnv) (img : DImg) : Signals :=
  if img.h < 10 ∨ img.w < 10 then
    { scratch_like := 0, dent_like := 0, repaint_like := 0 }
  else
    { scratch_like := clip01 ((env.edgeDensity img - 3/100) / (10/100)),
      dent_like := clip01 ((env.lapVar img - 150) / 900),
      repaint_like :=
        clip01 (clip01 ((env.satStd img - 30) / 70) * (6/10) +
                clip01 ((env.valStd img - 35) / 80) * (4/10)) }

/-- `DEFAULT_DAMAGE_LABELS` from `live_yolo.py` (a set, used for membership). -/
def DEFAULT_DAMAGE_LABELS : List String :=
  ["scratch", "dent", "crack", "broken", "damage", "bumper_damage", "door_dent",
   "headlight_broken", "taillight_broken", "paint_peel"]

/-- One entry of the `findings` list (YOLO detections or per-frame signals). -/
inductive Finding where
  | yolo (frame : String) (label : String) (confidence : ℚ) (box : List ℚ)
  | heur (frame : String) (signals : Signals)
deriving DecidableEq

/-- The `summary` dictionary; fields unused by a branch stay at their empty
value (the no-frame early return carries the empty dictionary). -/
structure DamageSummary where
  severity : String
  top_confidence : Option ℚ
  suspected_labels : List (String × ℕ)
  score : Option ℚ
  signals_avg : Option Signals
deriving DecidableEq

/-- The empty `summary` dictionary of the no-frame early return. -/
def emptyDamageSummary : DamageSummary :=
  { severity := "", top_confidence := none, suspected_labels := [],
    score := none, signals_avg := none }

/-- Result dictionary of `run_damage_pipeline`. -/
structure DamageResult where
  ok : Bool
  message : String
  method : String
  summary : DamageSummary
  findings : List Finding
deriving DecidableEq

/-- `label_counts[label] = label_counts.get(label, 0) + 1` on an
insertion-ordered association list (Python dicts preserve insertion order). -/
def bumpCount : List (String × ℕ) → String → List (String × ℕ)
  | [], k => [(k, 1)]
  | (a, n) :: rest, k =>
    if a = k then (a, n + 1) :: rest else (a, n) :: bumpCount rest k

/-- Accumulator of the YOLO scan loop. -/
structure YoloAcc where
  counts : List (String × ℕ)
  top_conf : ℚ
  findings : List Finding
deriving DecidableEq

/-- Per-detection body of the YOLO loop: count the label, track the peak
confidence, and keep a representative finding when
`conf >= max(0.45, yolo_conf)`. -/
def yoloStep (yolo_conf : ℚ) (fp : String) (acc : YoloAcc) (d : DDet) : YoloAcc :=
  { counts := bumpCount acc.counts d.label,
    top_conf := max acc.top_conf d.conf,
    findings := acc.findings ++
      (if max (45/100) yolo_conf ≤ d.conf then
        [Finding.yolo fp d.label d.conf d.box] else []) }

/-- The full YOLO scan over the processed frames. -/
def yoloScan (predict : String → ℚ → ℚ → List DDet) (yolo_conf yolo_iou : ℚ)
    (frames : List String) : YoloAcc :=
  frames.foldl
    (fun acc fp => (predict fp yolo_conf yolo_iou).foldl (yoloStep yolo_conf fp) acc)
    { counts := [], top_conf := 0, findings := [] }

/-- The substring keywords of the YOLO label filter. -/
def damageKeywords : List String :=
  ["scratch", "dent", "crack", "broken", "damage", "paint"]

/-- `run_damage_pipeline(frame_paths, vehicle_type="car", yolo_model_path=None,
yolo_conf=0.25, yolo_iou=0.45, max_frames_to_process=28)`: existence filter,
no-frame early return, detector-availability selection with silent fallback,
and both scoring branches, translated from the source. -/
def run_damage_pipeline (env : DmgEnv) (frame_paths : List String)
    (vehicle_type : String) (yolo_model_path : Option String)
    (yolo_conf yolo_iou : ℚ) (max_frames_to_process : ℕ) : DamageResult :=
  let _ := vehicle_type
  let fpaths := frame_paths.filter (fun p => env.fileExists p)
  if fpaths.isEmpty then
    { ok := false, message := "Hasar analizi için frame bulunamadı.",
      method := "none", summary := emptyDamageSummary, findings := [] }
  else
    let detector : Option (String → ℚ → ℚ → List DDet) :=
      match yolo_model_path with
      | none => none
      | some s => if s = "" then none else env.detectorFor s
    let frames_to_process := fpaths.take max_frames_to_process
    match detector with
    | some predict =>
      let acc := yoloScan predict yolo_conf yolo_iou frames_to_process
      let suspected :=
        (sortDescBy (fun kv => (kv.2 : ℚ)) acc.counts).filter
          (fun kv => DEFAULT_DAMAGE_LABELS.contains kv.1.toLower ||
            damageKeywords.any (fun k => strHasSub kv.1.toLower k))
      let total : ℕ := (suspected.map (fun kv => kv.2)).sum
      let severity :=
        if 6 ≤ total ∨ 3/4 ≤ acc.top_conf then "high"
        else if 3 ≤ total ∨ 3/5 ≤ acc.top_conf then "medium"
        else "low"
      { ok := true, message := "Hasar analizi tamam (YOLO).", method := "yolo",
        summary := { severity := severity, top_confidence := some acc.top_conf,
                     suspected_labels := suspected.take 6,
                     score := none, signals_avg := none },
        findings := acc.findings.take 40 }
    | none =>
      let per_frame : List (String × Signals) :=
        frames_to_process.filterMap
          (fun fp => (env.imread fp).map (fun img => (fp, heuristic_damage_signals env img)))
      let n : ℚ := ((max 1 per_frame.length : ℕ) : ℚ)
      let agg : Signals :=
        { scratch_like := (per_frame.map (fun ps => ps.2.scratch_like)).sum / n,
          dent_like := (per_frame.map (fun ps => ps.2.dent_like)).sum / n,
          repaint_like := (per_frame.map (fun ps => ps.2.repaint_like)).sum / n }
      let score := 45/100 * agg.scratch_like + 35/100 * agg.dent_like +
        20/100 * agg.repaint_like
      let severity :=
        if 62/100 ≤ score then "high"
        else if 42/100 ≤ score then "medium"
        else "low"
      let notable :=
        (sortDescBy
          (fun ps => 45/100 * ps.2.scratch_like + 35/100 * ps.2.dent_like +
            20/100 * ps.2.repaint_like) per_frame).take 10
      { ok := true, message := "Hasar analizi tamam (heuristic).", method := "heuristic",
        summary := { severity := severity, top_confidence := none,
                     suspected_labels := [],
                     score := some score, signals_avg := some agg },
        findings := notable.map (fun ps => Finding.heur ps.1 ps.2) }

/-- C2.  Whenever the detector is unavailable — no (or empty) model path, or
`YoloDetector` construction raises — `run_damage_pipeline`, given at least one
existing decodable frame, silently degrades to heuristic mode and returns
`ok = true` with `method = "heuristic"`; the embedding is a total function, so
no exception can propagate. -/
theorem C2_detector_fallback_heuristic (env : DmgEnv) (frame_paths : List String)
    (vehicle_type : String) (mp : Option String) (yolo_conf yolo_iou : ℚ)
    (maxf : ℕ) (p : String) (img : DImg)
    (hdet : match mp with
            | none => True
            | some s => s = "" ∨ env.detectorFor s = none)
    (hp : p ∈ frame_paths) (hex : env.fileExists p = true)
    (hdec : env.imread p = some img) :
    (run_damage_pipeline env frame_paths vehicle_type mp yolo_conf yolo_iou maxf).ok = true ∧
    (run_damage_pipeline env frame_paths vehicle_type mp yolo_conf yolo_iou maxf).method =
      "heuristic" := by
  have hmem : p ∈ frame_paths.filter (fun q => env.fileExists q) :=
    List.mem_filter.mpr ⟨hp, hex⟩
  have hne : (frame_paths.filter (fun q => env.fileExists q)).isEmpty = false := by
    cases hfilter : frame_paths.filter (fun q => env.fileExists q) with
    | nil => rw [hfilter] at hmem; cases hmem
    | cons a l => rfl
  match mp with
  | none => simp [run_damage_pipeline, hne]
  | some s =>
    rcases hdet with hs | hs
    · simp [run_damage_pipeline, hne, hs]
    · by_cases hse : s = ""
      · simp [run_damage_pipeline, hne, hse]
      · simp [run_damage_pipeline, hne, hse, hs]

/-- A one-frame environment whose detector construction always raises. -/
def dmgEnvNoDetector : DmgEnv :=
  { fileExists := fun _ => true,
    imread := fun _ => some { h := 100, w := 100, tag := 0 },
    edgeDensity := fun _ => 0, lapVar := fun _ => 0,
    satStd := fun _ => 0, valStd := fun _ => 0,
    detectorFor := fun _ => none }

/-- C2, witness: a model path whose detector fails to load, one existing
decodable frame. -/
theorem C2_detector_fallback_heuristic_witness :
    ((match (some "model.pt" : Option String) with
      | none => True
      | some s => s = "" ∨ dmgEnvNoDetector.detectorFor s = none) ∧
      "f1.jpg" ∈ ["f1.jpg"] ∧ dmgEnvNoDetector.fileExists "f1.jpg" = true ∧
      dmgEnvNoDetector.imread "f1.jpg" = some { h := 100, w := 100, tag := 0 }) ∧
    ((run_damage_pipeline dmgEnvNoDetector ["f1.jpg"] "car" (some "model.pt")
        (1/4) (45/100) 28).ok = true ∧
      (run_damage_pipeline dmgEnvNoDetector ["f1.jpg"] "car" (some "model.pt")
        (1/4) (45/100) 28).method = "heuristic") :=
  ⟨⟨Or.inr rfl, by decide, rfl, rfl⟩,
    C2_detector_fallback_heuristic dmgEnvNoDetector ["f1.jpg"] "car" (some "model.pt")
      (1/4) (45/100) 28 "f1.jpg" { h := 100, w := 100, tag := 0 }
      (Or.inr rfl) (by decide) rfl rfl⟩

/-! ## Engine audio analyzer — `backend/analysis/engine_audio.py` -/

/-- Environment for `engine_audio.py`: filesystem, the outcome of the ffmpeg
transcoding subprocess, the decoded waveform, and the numpy numerics the
module consumes.  `ffmpeg_ok` is the result of `_ffmpeg_extract_wav` (return
code 0, wav file present and larger than 1000 bytes); `wav` is the
`(samples, framerate)` pair produced by `_read_wav_pcm16`, samples already
normalized by `/ 32768.0`. -/
structure AudEnv where
  fileExists : String → Bool
  ffmpeg_ok : Bool
  wav : List ℚ × ℕ
  /-- `np.sqrt`, applied to the mean square for the RMS. -/
  npSqrt : ℚ → ℚ
  /-- The FFT band-energy ratio of `_band_energy` past its length guard. -/
  fft_band : List ℚ → ℕ → ℚ → ℚ → ℚ

/-- `_band_energy`: the `n < sr // 2` guard around the FFT capability. -/
def band_energy (env : AudEnv) (x : List ℚ) (sr : ℕ) (f1 f2 : ℚ) : ℚ :=
  if x.length < sr / 2 then 0 else env.fft_band x sr f1 f2

/-- Result dictionary of `analyze_engine_audio`; `signals` is the Python dict
as an association list. -/
structure AudioResult where
  ok : Bool
  skipped : Bool
  message : String
  risk_level : String
  signals : List (String × ℚ)
  hints : List String
deriving DecidableEq

/-- `signals.get(k, 0.0) or 0.0` (the `or` maps a falsy `0.0` to `0.0`,
hence is the identity on the numeric value). -/
def lookupSig (sigs : List (String × ℚ)) (k : String) : ℚ := (sigs.lookup k).getD 0

/-- `analyze_engine_audio(video_path, vehicle_is_electric=False)`: the
electric-vehicle skip, the missing-file and failed-extraction returns, the
short-clip return, and the signal/risk computation, translated branch for
branch from the source. -/
def analyze_engine_audio (env : AudEnv) (video_path : String)
    (vehicle_is_electric : Bool) : AudioResult :=
  if vehicle_is_electric then
    { ok := true, skipped := true,
      message := "Elektrikli araç seçildi; motor sesi analizi atlandı.",
      risk_level := "none", signals := [], hints := [] }
  else if env.fileExists video_path = false then
    { ok := false, skipped := false, message := "Video bulunamadı.",
      risk_level := "unknown", signals := [], hints := [] }
  else if env.ffmpeg_ok = false then
    { ok := false, skipped := false,
      message := "Ses çıkarılamadı (ffmpeg yok / ses track yok olabilir).",
      risk_level := "unknown", signals := [],
      hints := ["Motor sesi analizi için videoda motor sesi net olmalı ve ffmpeg erişilebilir olmalı."] }
  else
    let x := env.wav.1
    let sr := env.wav.2
    if x.length < sr * 3 then
      { ok := true, skipped := false,
        message := "Ses çok kısa; risk analizi sınırlı.",
        risk_level := "unknown",
        signals := [("duration_sec", (x.length : ℚ) / (sr : ℚ))],
        hints := ["Motor kaputu açıkken 5–10 sn sabit çekip sesi net kaydedin."] }
    else
      let rms := env.npSqrt (listMean (x.map (fun v => v * v)))
      let peak := (x.map (fun v => |v|)).foldr max 0
      let clipping_ratio :=
        ((x.filter (fun v => decide ((98 : ℚ)/100 < |v|))).length : ℚ) / (x.length : ℚ)
      let roughness := listMean ((x.zip x.tail).map (fun ab => |ab.2 - ab.1|))
      let low := band_energy env x sr 40 250
      let mid := band_energy env x sr 250 1200
      let high := band_energy env x sr 1200 5000
      let risk_score := clip01 (
        clip01 ((high - 18/100) / (20/100)) * (45/100) +
        clip01 ((roughness - 2/100) / (2/100)) * (35/100) +
        clip01 ((clipping_ratio - 1/100) / (5/100)) * (20/100))
      let risk_level :=
        if 65/100 ≤ risk_score then "high"
        else if 40/100 ≤ risk_score then "medium"
        else "low"
      let hints : List String :=
        (if 2/100 < clipping_ratio then
          ["Ses kaydı patlıyor (clipping). Telefonu biraz uzak tutup tekrar kaydedin."] else [])
        ++ (if 30/100 < high then
          ["Yüksek frekans enerjisi yüksek; kayış/alternatör/rezonans gibi sesler olabilir (kesin teşhis değildir)."] else [])
        ++ (if 35/1000 < roughness then
          ["Ses düzensiz/sert görünüyor; rölantide 5–10 sn sabit kayıt önerilir."] else [])
      { ok := true, skipped := false, message := "Motor sesi analizi tamam.",
        risk_level := risk_level,
        signals := [("duration_sec", (x.length : ℚ) / (sr : ℚ)),
                    ("rms", rms), ("peak", peak),
                    ("clipping_ratio", clipping_ratio), ("roughness", roughness),
                    ("band_low", low), ("band_mid", mid), ("band_high", high),
                    ("risk_score", risk_score)],
        hints := hints }

/-- C8.  When audio extraction succeeds but the decoded waveform is shorter
than 3 seconds (`len(x) < sr * 3`), `analyze_engine_audio` returns `ok = true`
(not a failure) with `risk_level = "unknown"` and exactly the short-clip hint;
the embedding is a total function, so no exception can propagate. -/
theorem C8_short_audio_unknown (env : AudEnv) (p : String)
    (hev : (false : Bool) = false) (hex : env.fileExists p = true)
    (hff : env.ffmpeg_ok = true) (hlen : env.wav.1.length < env.wav.2 * 3) :
    (analyze_engine_audio env p false).ok = true ∧
    (analyze_engine_audio env p false).skipped = false ∧
    (analyze_engine_audio env p false).risk_level = "unknown" ∧
    (analyze_engine_audio env p false).hints =
      ["Motor kaputu açıkken 5–10 sn sabit çekip sesi net kaydedin."] := by
  simp [analyze_engine_audio, hex, hff, hlen]

/-- A decodable waveform of three zero samples at 16 kHz (far below 3 s). -/
def audEnvShort : AudEnv :=
  { fileExists := fun _ => true, ffmpeg_ok := true,
    wav := ([0, 0, 0], 16000),
    npSqrt := fun q => q, fft_band := fun _ _ _ _ => 0 }

/-- C8, witness at a 0.1-second decodable waveform. -/
theorem C8_short_audio_unknown_witness :
    ((false : Bool) = false ∧ audEnvShort.fileExists "v.mp4" = true ∧
      audEnvShort.ffmpeg_ok = true ∧
      audEnvShort.wav.1.length < audEnvShort.wav.2 * 3) ∧
    ((analyze_engine_audio audEnvShort "v.mp4" false).ok = true ∧
      (analyze_engine_audio audEnvShort "v.mp4" false).skipped = false ∧
      (analyze_engine_audio audEnvShort "v.mp4" false).risk_level = "unknown" ∧
      (analyze_engine_audio audEnvShort "v.mp4" false).hints =
        ["Motor kaputu açıkken 5–10 sn sabit çekip sesi net kaydedin."]) :=
  ⟨⟨rfl, rfl, rfl, by decide⟩,
    C8_short_audio_unknown audEnvShort "v.mp4" rfl rfl rfl (by decide)⟩

/-! ## Confidence aggregator — `backend/analysis/ai_confidence.py` -/

/-- The label step function at the end of `compute_confidence`:
`"yüksek"` (high) by default, `"düşük"` (low) below 45, `"orta"` (medium)
below 70. -/
def confidenceLevelOf (s : ℚ) : String :=
  if s < 45 then "düşük" else if s < 70 then "orta" else "yüksek"

/-- Rank of the ordered level labels low < medium < high. -/
def levelRank (l : String) : ℕ :=
  if l = "düşük" then 0 else if l = "orta" then 1 else 2

/-- The clamp `max(0.0, min(100.0, score))`, cast to `ℚ`, lies in `[0, 100]`. -/
theorem intClampCastRange (z : ℤ) :
    (0 : ℚ) ≤ ((max 0 (min 100 z) : ℤ) : ℚ) ∧
    ((max 0 (min 100 z) : ℤ) : ℚ) ≤ 100 := by
  constructor
  · exact_mod_cast le_max_left 0 (min 100 z)
  · have h : max 0 (min 100 z) ≤ (100 : ℤ) :=
      max_le (by norm_num) (min_le_left _ _)
    exact_mod_cast h

/-- Result dictionary of `compute_confidence`. -/
structure ConfidenceResult where
  ok : Bool
  confidence_score : ℚ
  confidence_level : String
  reasons : List String
deriving DecidableEq

/-- `compute_confidence(video_quality, coverage, damage, engine_audio=None)`:
base 78, the six quality-flag penalties, the coverage tiers, the audio
clipping penalty, the damage-method adjustment, the clamp to `[0, 100]` and
the label, translated from the source.  Every addend is an integer, so the
arithmetic is carried out in `ℤ` and the final Python `round(score, 1)` is
the identity on it. -/
def compute_confidence (video_quality : VideoQualityResult)
    (coverage : CoverageResult) (damage : DamageResult)
    (engine_audio : Option AudioResult) : ConfidenceResult :=
  let cov_ratio := coverage.coverage_ratio
  let s1 : ℤ := 78
    - (if video_quality.too_short then 18 else 0)
    - (if video_quality.too_low_res then 14 else 0)
    - (if video_quality.too_dark then 10 else 0)
    - (if video_quality.too_bright then 8 else 0)
    - (if video_quality.too_blurry then 16 else 0)
    - (if video_quality.too_shaky then 10 else 0)
  let s2 : ℤ := s1 -
    (if cov_ratio < 35/100 then 22
     else if cov_ratio < 55/100 then 12
     else if cov_ratio < 70/100 then 6
     else 0)
  let s3 : ℤ := s2 -
    (match engine_audio with
     | some ea =>
       if ea.ok && !ea.skipped then
         (if (2 : ℚ)/100 < lookupSig ea.signals "clipping_ratio" then 8 else 0)
       else 0
     | none => 0)
  let s4 : ℤ := s3 +
    (if damage.method = "yolo" then 6
     else if damage.method = "heuristic" then -4
     else -10)
  let score : ℤ := max 0 (min 100 s4)
  let reasons :=
    (video_quality.hints ++ coverage.hints ++
      (match engine_audio with | some ea => ea.hints | none => [])).take 8
  { ok := true,
    confidence_score := (score : ℚ),
    confidence_level := confidenceLevelOf (score : ℚ),
    reasons := reasons }

/-- C1.  For every combination of upstream reports the confidence score lies
in `[0, 100]`, the returned level label is exactly the fixed step function
`confidenceLevelOf` of the returned score (low below 45, medium below 70,
high from 70 on), and that step function is monotone non-decreasing in the
score. -/
theorem C1_confidence_range_level_monotone (vq : VideoQualityResult)
    (cov : CoverageResult) (dmg : DamageResult) (ea : Option AudioResult)
    (s t : ℚ) (hst : s ≤ t) :
    (0 ≤ (compute_confidence vq cov dmg ea).confidence_score ∧
      (compute_confidence vq cov dmg ea).confidence_score ≤ 100) ∧
    (compute_confidence vq cov dmg ea).confidence_level =
      confidenceLevelOf (compute_confidence vq cov dmg ea).confidence_score ∧
    levelRank (confidenceLevelOf s) ≤ levelRank (confidenceLevelOf t) := by
  refine ⟨⟨?_, ?_⟩, rfl, ?_⟩
  · simp only [compute_confidence]
    exact (intClampCastRange _).1
  · simp only [compute_confidence]
    exact (intClampCastRange _).2
  · unfold confidenceLevelOf
    split_ifs <;> first | decide | (exfalso; linarith)

/-- Quality report with no raised flags. -/
def vqAllGood : VideoQualityResult :=
  { ok := true, message := "", duration_sec := 20, fps := 30, width := 1080,
    height := 1080, frame_count := 600,
    blur_score_mean := 500, blur_score_p10 := 200, exposure_mean := 120,
    exposure_p10 := 100, exposure_p90 := 150, shake_score := 1,
    motion_score := 2, too_short := false, too_low_res := false,
    too_dark := false, too_bright := false, too_blurry := false,
    too_shaky := false, hints := [] }

/-- A good-tier coverage report. -/
def covGood : CoverageResult :=
  { ok := true, coverage_ratio := 8/10, message := "Kapsama analizi tamam.",
    hints := ["Kapsama iyi: Analiz doğruluğu için yeterli görüntü var."] }

/-- A heuristic-mode damage report. -/
def dmgHeuristic : DamageResult :=
  { ok := true, message := "Hasar analizi tamam (heuristic).",
    method := "heuristic",
    summary := { severity := "low", top_confidence := none,
                 suspected_labels := [], score := some 0,
                 signals_avg := some { scratch_like := 0, dent_like := 0, repaint_like := 0 } },
    findings := [] }

/-- C1, witness at concrete upstream reports and scores 10 ≤ 80. -/
theorem C1_confidence_range_level_monotone_witness :
    ((10 : ℚ) ≤ 80) ∧
    ((0 ≤ (compute_confidence vqAllGood covGood dmgHeuristic none).confidence_score ∧
      (compute_confidence vqAllGood covGood dmgHeuristic none).confidence_score ≤ 100) ∧
    (compute_confidence vqAllGood covGood dmgHeuristic none).confidence_level =
      confidenceLevelOf (compute_confidence vqAllGood covGood dmgHeuristic none).confidence_score ∧
    levelRank (confidenceLevelOf 10) ≤ levelRank (confidenceLevelOf 80)) :=
  ⟨by decide,
    C1_confidence_range_level_monotone vqAllGood covGood dmgHeuristic none 10 80 (by decide)⟩

/-! ## Tamper heuristics — `backend/analysis/bolt_tamper.py` -/

/-- An abstract decoded image for the tamper checks. -/
structure BImg where
  h : ℕ
  w : ℕ
  tag : ℕ
deriving DecidableEq

/-- A `cv2.boundingRect` of a contour. -/
structure BRect where
  x : ℕ
  y : ℕ
  bw : ℕ
  bh : ℕ
deriving DecidableEq

/-- Environment for `bolt_tamper.py`.  `imread` is `cv2.imread` (`none` makes
`_safe_read` raise `ValueError`); grayscale conversion preserves dimensions,
so pixel content is consumed only through the remaining capabilities:
`contours` is the bounding rectangles of
`cv2.findContours(cv2.Canny(cv2.GaussianBlur(gray, (5,5), 0), 60, 160))`,
`roiLapAbsMean` is `np.mean(np.abs(cv2.Laplacian(roi_gray, CV_64F)))` of a
region `(x1, y1, x2, y2)`, and `roiEdgeDensity` is
`np.mean(cv2.Canny(roi_gray, 50, 160) > 0)` of that region. -/
structure BoltEnv where
  imread : String → Option BImg
  contours : BImg → List BRect
  roiLapAbsMean : BImg → ℕ × ℕ × ℕ × ℕ → ℚ
  roiEdgeDensity : BImg → ℕ × ℕ × ℕ × ℕ → ℚ

/-- `_detect_bolt_like_regions`: keep contours whose bounding-box area is in
`[120, 0.12·h·w]` and whose aspect ratio `bw / max(1, bh)` lies in
`[0.55, 1.8]`; return the 8 largest by area (stable descending sort). -/
def detect_bolt_like_regions (env : BoltEnv) (gray : BImg) : List BRect :=
  let kept := (env.contours gray).filter (fun b =>
    let area : ℕ := b.bw * b.bh
    (!(decide (area < 120) ||
       decide (((gray.h * gray.w : ℕ) : ℚ) * (12/100) < (area : ℚ)))) &&
    (decide ((55 : ℚ)/100 ≤ (b.bw : ℚ) / ((max 1 b.bh : ℕ) : ℚ)) &&
     decide ((b.bw : ℚ) / ((max 1 b.bh : ℕ) : ℚ) ≤ 18/10)))
  (sortDescBy (fun b => ((b.bw * b.bh : ℕ) : ℚ)) kept).take 8

/-- `_tool_mark_score`: `min(1.0, energy / 25.0)`. -/
def tool_mark_score (env : BoltEnv) (img : BImg) (rect : ℕ × ℕ × ℕ × ℕ) : ℚ :=
  min 1 (env.roiLapAbsMean img rect / 25)

/-- `_paint_crack_score`: `min(1.0, edge_density / 0.18)`. -/
def paint_crack_score (env : BoltEnv) (img : BImg) (rect : ℕ × ℕ × ℕ × ℕ) : ℚ :=
  min 1 (env.roiEdgeDensity img rect / (18/100))

/-- One entry of the `bolts` report list. -/
structure BoltReport where
  box : List ℕ
  tool_mark : ℚ
  paint_crack : ℚ
  score : ℚ
deriving DecidableEq

/-- Result dictionary of `bolt_tamper_assessment`. -/
structure BoltResult where
  label : String
  score : ℚ
  reason : String
  bolts : List BoltReport
deriving DecidableEq

/-- `bolt_tamper_assessment(image_path)`: the unreadable-image `ValueError`
(as `Except.error`), the no-candidate early return, the padded per-region
scoring, the top-2 averaging and the three-tier labelling, translated from
the source. -/
def bolt_tamper_assessment (env : BoltEnv) (image_path : String) :
    Except String BoltResult :=
  match env.imread image_path with
  | none => Except.error ("Cannot read image: " ++ image_path)
  | some img =>
    let boxes := detect_bolt_like_regions env img
    if boxes.isEmpty then
      Except.ok
        { label := "INSUFFICIENT_EVIDENCE", score := 0,
          reason := "Vida/baş benzeri bölge tespit edilemedi (daha yakın/net çekim gerekli).",
          bolts := [] }
    else
      let reports := boxes.map (fun b =>
        let pad := ((((max b.bw b.bh : ℕ) : ℚ) * (25/100)).floor).toNat
        let x1 := b.x - pad
        let y1 := b.y - pad
        let x2 := min img.w (b.x + b.bw + pad)
        let y2 := min img.h (b.y + b.bh + pad)
        let tool := tool_mark_score env img (x1, y1, x2, y2)
        let crack := paint_crack_score env img (x1, y1, x2, y2)
        let s := max 0 (min 1 (6/10 * tool + 4/10 * crack))
        ({ box := [x1, y1, x2, y2], tool_mark := tool,
           paint_crack := crack, score := s } : BoltReport))
      let scores := reports.map (fun r => r.score)
      let top := (sortDescBy id scores).take 2
      let final := top.sum / ((max 1 top.length : ℕ) : ℚ)
      if 80/100 ≤ final then
        Except.ok
          { label := "DETECTED", score := final,
            reason := "Vida/menteşe bölgesinde anahtar izi ve boya çatlağı güçlü.",
            bolts := reports }
      else if 62/100 ≤ final then
        Except.ok
          { label := "SUSPECTED", score := final,
            reason := "Sök-tak şüphesi var, kanıt orta (daha net yakın çekim önerilir).",
            bolts := reports }
      else
        Except.ok
          { label := "INSUFFICIENT_EVIDENCE", score := final,
            reason := "Sök-tak için yeterli kanıt yok.",
            bolts := reports }

/-- C7.  On a readable image in which no contour passes the fastener filters,
`bolt_tamper_assessment` returns (never raises) the
`INSUFFICIENT_EVIDENCE` verdict with score exactly `0.0`, an explanatory
reason, and an empty region list. -/
theorem C7_bolt_no_candidates (env : BoltEnv) (p : String) (img : BImg)
    (himg : env.imread p = some img)
    (hboxes : detect_bolt_like_regions env img = []) :
    bolt_tamper_assessment env p = Except.ok
      { label := "INSUFFICIENT_EVIDENCE", score := 0,
        reason := "Vida/baş benzeri bölge tespit edilemedi (daha yakın/net çekim gerekli).",
        bolts := [] } := by
  simp [bolt_tamper_assessment, himg, hboxes]

/-- A readable image on which the contour detector finds nothing. -/
def boltEnvNoRegions : BoltEnv :=
  { imread := fun _ => some { h := 400, w := 400, tag := 0 },
    contours := fun _ => [],
    roiLapAbsMean := fun _ _ => 0, roiEdgeDensity := fun _ _ => 0 }

/-- C7, witness at a readable zero-contour image. -/
theorem C7_bolt_no_candidates_witness :
    (boltEnvNoRegions.imread "bolt.jpg" = some { h := 400, w := 400, tag := 0 } ∧
      detect_bolt_like_regions boltEnvNoRegions { h := 400, w := 400, tag := 0 } = []) ∧
    bolt_tamper_assessment boltEnvNoRegions "bolt.jpg" = Except.ok
      { label := "INSUFFICIENT_EVIDENCE", score := 0,
        reason := "Vida/baş benzeri bölge tespit edilemedi (daha yakın/net çekim gerekli).",
        bolts := [] } :=
  ⟨⟨rfl, by decide⟩,
    C7_bolt_no_candidates boltEnvNoRegions "bolt.jpg" { h := 400, w := 400, tag := 0 }
      rfl (by decide)⟩

/-! ## Tamper heuristics — `backend/analysis/paint_tamper.py` -/

/-- The feature set of `_panel_consistency_features`; every field is a
cv2/numpy statistic of the image (Lab-channel standard deviations,
high-frequency Laplacian energy, edge-band minus center dispersion), so the
whole feature extractor is an environment capability. -/
structure PFeats where
  l_std : ℚ
  a_std : ℚ
  b_std : ℚ
  hf_energy : ℚ
  edge_vs_center : ℚ
deriving DecidableEq

/-- Environment for `paint_tamper.py`. -/
structure PaintEnv where
  imread : String → Option BImg
  panelFeatures : BImg → PFeats

/-- Result dictionary of `paint_local_repair_score`. -/
structure PaintResult where
  label : String
  score : ℚ
  reason : String
  features : PFeats
deriving DecidableEq

/-- `paint_local_repair_score(image_path)`: the unreadable-image `ValueError`
(as `Except.error`), the fixed-weight score
`0.22·min(1, a_std/12) + 0.22·min(1, b_std/12) + 0.30·min(1, hf/18) +
0.26·min(1, max(0, evc)/25)` clamped to `[0, 1]`, and the three-tier decision
with breakpoints `0.78` and `0.62`, translated from the source. -/
def paint_local_repair_score (env : PaintEnv) (image_path : String) :
    Except String PaintResult :=
  match env.imread image_path with
  | none => Except.error ("Cannot read image: " ++ image_path)
  | some img =>
    let feats := env.panelFeatures img
    let score :=
      min 1 (feats.a_std / 12) * (22/100) +
      min 1 (feats.b_std / 12) * (22/100) +
      min 1 (feats.hf_energy / 18) * (30/100) +
      min 1 (max 0 feats.edge_vs_center / 25) * (26/100)
    let score := max 0 (min 1 score)
    if 78/100 ≤ score then
      Except.ok
        { label := "DETECTED", score := score,
          reason := "Panel içinde renk/doku tutarsızlığı güçlü.", features := feats }
    else if 62/100 ≤ score then
      Except.ok
        { label := "SUSPECTED", score := score,
          reason := "Lokal boya/sonradan işlem şüphesi var, kanıt orta.", features := feats }
    else
      Except.ok
        { label := "INSUFFICIENT_EVIDENCE", score := score,
          reason := "Boya/lokal boya için yeterli kanıt yok.", features := feats }

/-- Label and score of a paint verdict (projection helper for closed
statements about the `Except`-valued result). -/
def paintLabelScore : Except String PaintResult → String × ℚ
  | Except.ok r => (r.label, r.score)
  | Except.error _ => ("error", 0)

/-- An image whose panel features put the weighted score at exactly 0.79. -/
def paintEnv079 : PaintEnv :=
  { imread := fun _ => some { h := 400, w := 400, tag := 0 },
    panelFeatures := fun _ =>
      { l_std := 0, a_std := 12, b_std := 12, hf_energy := 18,
        edge_vs_center := 125/26 } }

/-- C6, counterexample.  A readable image with weighted score `0.79` is
labelled `DETECTED` by `paint_local_repair_score`, although `0.79 < 0.80`:
the paint check's `DETECTED` breakpoint is `0.78`, not the `0.80` of
`bolt_tamper_assessment`, so the claimed shared three-tier scale fails on
`[0.78, 0.80)`. -/
theorem C6_counterexample :
    paintLabelScore (paint_local_repair_score paintEnv079 "panel.jpg") =
      ("DETECTED", 79/100) ∧ (79 : ℚ)/100 < 80/100 := by
  with_unfolding_all decide

/-- C6, amended.  `paint_local_repair_score` maps its clamped weighted-sum
score to the three-tier scale with breakpoints `DETECTED` at `score ≥ 0.78`
(not the bolt check's `0.80`) and `SUSPECTED` at `0.62 ≤ score < 0.78`,
otherwise `INSUFFICIENT_EVIDENCE`. -/
theorem C6_paint_three_tier (env : PaintEnv) (p : String) (img : BImg)
    (r : PaintResult) (himg : env.imread p = some img)
    (hr : paint_local_repair_score env p = Except.ok r) :
    r.label =
      (if 78/100 ≤ r.score then "DETECTED"
       else if 62/100 ≤ r.score then "SUSPECTED"
       else "INSUFFICIENT_EVIDENCE") := by
  simp only [paint_local_repair_score, himg] at hr
  split_ifs at hr with h1 h2 <;>
    (simp only [Except.ok.injEq] at hr; subst hr; simp [h1, *])

/-- C6, witness for the amended theorem at the score-0.79 image. -/
theorem C6_paint_three_tier_witness :
    (paintEnv079.imread "panel.jpg" =
        some { h := 400, w := 400, tag := 0 } ∧
      paint_local_repair_score paintEnv079 "panel.jpg" = Except.ok
        { label := "DETECTED", score := 79/100,
          reason := "Panel içinde renk/doku tutarsızlığı güçlü.",
          features := { l_std := 0, a_std := 12, b_std := 12, hf_energy := 18,
                        edge_vs_center := 125/26 } }) ∧
    ({ label := "DETECTED", score := 79/100,
       reason := "Panel içinde renk/doku tutarsızlığı güçlü.",
       features := { l_std := 0, a_std := 12, b_std := 12, hf_energy := 18,
                     edge_vs_center := 125/26 } } : PaintResult).label =
      (if (78 : ℚ)/100 ≤ (79 : ℚ)/100 then "DETECTED"
       else if (62 : ℚ)/100 ≤ (79 : ℚ)/100 then "SUSPECTED"
       else "INSUFFICIENT_EVIDENCE") :=
  ⟨⟨rfl, by with_unfolding_all rfl⟩,
    C6_paint_three_tier paintEnv079 "panel.jpg" { h := 400, w := 400, tag := 0 }
      _ rfl (by with_unfolding_all rfl)⟩

/-! ## Frame sampler — `backend/analysis/frame_extractor.py` -/

/-- An abstract decodable video frame of the extraction stream. -/
structure FFrame where
  h : ℕ
  w : ℕ
  tag : ℕ
deriving DecidableEq

/-- `cv2.VideoCapture` result for the extractor: metadata plus the
sequentially decodable frames. -/
structure FECap where
  fps : ℚ
  frame_count : ℤ
  frames : List FFrame
deriving DecidableEq

/-- Environment for `frame_extractor.py`: filesystem, decoder, and the
`uuid.uuid4().hex[:8]` fragment drawn at the `saved`-th write.  Resizing and
`cv2.imwrite` affect only the stored pixel data, never the returned path
list, and are not modelled further. -/
structure FEEnv where
  fileExists : String → Bool
  openVideo : String → Option FECap
  uuidHex : ℕ → String

/-- `f"frame_{saved:03d}_..."`: zero-padded three-digit formatting. -/
def pad3 (n : ℕ) : String :=
  if n < 10 then "00" ++ toString n
  else if n < 100 then "0" ++ toString n
  else toString n

/-- Python `range(0, stop, step)` for a positive `step`. -/
def rangeStep (stop step : ℕ) : List ℕ :=
  (List.range ((stop + step - 1) / step)).map (fun i => i * step)

/-- The sequential `cap.read()` loop: every decoded frame advances `i`; an
index in `sample_indices` saves a file and appends its path; the loop breaks
once `saved` reaches `max_frames`. -/
def saveLoopPaths (env : FEEnv) (out_dir : String) (idxSet : List ℕ)
    (maxF : ℕ) : List FFrame → ℕ → ℕ → List String
  | [], _, _ => []
  | _f :: rest, i, saved =>
    if idxSet.contains i then
      let path := out_dir ++ "/frame_" ++ pad3 saved ++ "_" ++ env.uuidHex saved ++ ".jpg"
      if maxF ≤ saved + 1 then [path]
      else path :: saveLoopPaths env out_dir idxSet maxF rest (i + 1) (saved + 1)
    else saveLoopPaths env out_dir idxSet maxF rest (i + 1) saved

/-- Result dictionary of `extract_frames`. -/
structure FrameExtractResult where
  ok : Bool
  frames_dir : String
  frames : List String
  count : ℕ
  message : String
deriving DecidableEq

/-- The final result assembly of `extract_frames`:
`ok = len(frames) >= 8` and the success/diagnostic message. -/
def mkFrameResult (out_dir : String) (frames : List String) : FrameExtractResult :=
  let ok := decide (8 ≤ frames.length)
  { ok := ok, frames_dir := out_dir, frames := frames, count := frames.length,
    message := if ok then "Frame çıkarımı tamam."
               else "Yeterli frame çıkarılamadı; video çok kısa/bozuk olabilir." }

/-- `mkFrameResult` declares success exactly at 8 saved frames, with the
diagnostic message otherwise. -/
theorem mkFrameResult_spec (d : String) (L : List String) :
    ((mkFrameResult d L).ok = true ↔ 8 ≤ (mkFrameResult d L).count) ∧
    ((mkFrameResult d L).ok = false →
      (mkFrameResult d L).message =
        "Yeterli frame çıkarılamadı; video çok kısa/bozuk olabilir.") := by
  constructor
  · simp [mkFrameResult]
  · intro h
    simp [mkFrameResult] at h
    simp [mkFrameResult, h]

/-- `extract_frames(video_path, out_dir, max_frames=36, min_gap_sec=0.4,
target_long_side=1280, jpeg_quality=88)`: the missing-file and unopenable
returns, the metadata fallback `fps = 25.0`, the two sampling-index schemes,
the save loop and the final `ok = len(frames) >= 8`, translated from the
source (`//` and `int()` act on the positive values reached here as `ℕ`
floor division and `Rat.floor`). -/
def extract_frames (env : FEEnv) (video_path out_dir : String)
    (max_frames : ℕ) (min_gap_sec : ℚ) : FrameExtractResult :=
  if env.fileExists video_path = false then
    { ok := false, frames_dir := out_dir, frames := [], count := 0,
      message := "Video bulunamadı." }
  else
    match env.openVideo video_path with
    | none =>
      { ok := false, frames_dir := out_dir, frames := [], count := 0,
        message := "Video açılamadı." }
    | some cap =>
      let fps0 := cap.fps
      let frame_count := cap.frame_count
      let fps := if fps0 ≤ 0 ∨ frame_count ≤ 0 then (25 : ℚ) else fps0
      let duration : ℚ :=
        if frame_count ≠ 0 then (frame_count : ℚ) / fps else 0
      let sample_indices : List ℕ :=
        if duration ≤ 1/10 then
          (List.range max_frames).map (fun i => i * 10)
        else
          let gap_frames := max 1 ((min_gap_sec * fps).floor).toNat
          let approx := max 1 (frame_count.toNat / max_frames)
          let stride := max gap_frames approx
          (rangeStep frame_count.toNat stride).take max_frames
      mkFrameResult out_dir (saveLoopPaths env out_dir sample_indices max_frames cap.frames 0 0)

/-- C9.  `extract_frames` declares success exactly when at least 8 frames
were saved: `ok = true ↔ count ≥ 8`, and every `ok = false` result carries
one of the three diagnostic messages. -/
theorem C9_extract_frames_ok_iff (env : FEEnv) (video_path out_dir : String)
    (max_frames : ℕ) (min_gap_sec : ℚ) :
    ((extract_frames env video_path out_dir max_frames min_gap_sec).ok = true ↔
      8 ≤ (extract_frames env video_path out_dir max_frames min_gap_sec).count) ∧
    ((extract_frames env video_path out_dir max_frames min_gap_sec).ok = false →
      (extract_frames env video_path out_dir max_frames min_gap_sec).message =
        "Video bulunamadı." ∨
      (extract_frames env video_path out_dir max_frames min_gap_sec).message =
        "Video açılamadı." ∨
      (extract_frames env video_path out_dir max_frames min_gap_sec).message =
        "Yeterli frame çıkarılamadı; video çok kısa/bozuk olabilir.") := by
  unfold extract_frames
  split
  · simp
  · split
    · simp
    · exact ⟨(mkFrameResult_spec _ _).1,
        fun h => Or.inr (Or.inr ((mkFrameResult_spec _ _).2 h))⟩

/-- A filesystem with no video file for the extractor. -/
def feEnvMissing : FEEnv :=
  { fileExists := fun _ => false, openVideo := fun _ => none,
    uuidHex := fun _ => "abcd1234" }

/-- C9, witness at a missing-file environment. -/
theorem C9_extract_frames_ok_iff_witness :
    (((extract_frames feEnvMissing "v.mp4" "frames" 36 (2/5)).ok = true ↔
      8 ≤ (extract_frames feEnvMissing "v.mp4" "frames" 36 (2/5)).count) ∧
    ((extract_frames feEnvMissing "v.mp4" "frames" 36 (2/5)).ok = false →
      (extract_frames feEnvMissing "v.mp4" "frames" 36 (2/5)).message =
        "Video bulunamadı." ∨
      (extract_frames feEnvMissing "v.mp4" "frames" 36 (2/5)).message =
        "Video açılamadı." ∨
      (extract_frames feEnvMissing "v.mp4" "frames" 36 (2/5)).message =
        "Yeterli frame çıkarılamadı; video çok kısa/bozuk olabilir.")) :=
  C9_extract_frames_ok_iff feEnvMissing "v.mp4" "frames" 36 (2/5)

/-! ## Narrative generator — `backend/analysis/ai_llm.py` and
`backend/analysis/ai_commentary.py` -/

/-- One element of an output item's `content` list in the LLM payload. -/
structure LLMContent where
  type : String
  text : Option String
deriving DecidableEq

/-- One element of the `output` list in the LLM payload. -/
structure LLMItem where
  content : List LLMContent
deriving DecidableEq

/-- The parsed JSON payload: an optional string `output_text` field
(`none` also covers a present but non-string value, per the `isinstance`
check) and an `output` list. -/
structure LLMPayload where
  output_text : Option String
  output : List LLMItem
deriving DecidableEq

/-- The HTTP response: status code plus the parsed body; `body = none`
models `r.json()` raising on a malformed payload. -/
structure LLMResponse where
  status : ℕ
  body : Option LLMPayload
deriving DecidableEq

/-- Environment for `ai_llm.py`: the process environment and the single
`requests.post` exchange of one call (`Except.error` models a raised network
failure or timeout; the request itself — url, bearer header, model name from
`OPENAI_MODEL`, prompt, temperature 0.4, max_output_tokens 420 — only feeds
the external service, so the canned response stands for its outcome). -/
structure LLMEnv where
  getenv : String → Option String
  post : Except Unit LLMResponse

/-- `call_llm_commentary(prompt, timeout_sec=25)`: the missing-credential
check, the raised-exception and non-success-status returns, the malformed
payload return, and the two-stage text extraction with its
`strip() or None` emptiness collapses, translated from the source. -/
def call_llm_commentary (env : LLMEnv) (prompt : String) (timeout_sec : ℕ) :
    Option String :=
  let _ := prompt
  let _ := timeout_sec
  let api_key := ((env.getenv "OPENAI_API_KEY").getD "").trim
  if api_key = "" then none
  else
    match env.post with
    | Except.error _ => none
    | Except.ok r =>
      if 300 ≤ r.status then none
      else
        match r.body with
        | none => none
        | some data =>
          match data.output_text with
          | some s => let t := s.trim; if t = "" then none else some t
          | none =>
            let out := data.output
            if out.isEmpty then none
            else
              let texts := (out.map (fun item =>
                item.content.filterMap (fun c =>
                  if c.type = "output_text" then c.text else none))).flatten
              let txt := (String.intercalate "\n" texts).trim
              if txt = "" then none else some txt

/-- Result dictionary of `generate_human_commentary`. -/
structure CommentaryResult where
  ok : Bool
  method : String
  text : String
deriving DecidableEq

/-- Environment for `ai_commentary.py`: the LLM call plus Python's string
renderings of floats, string lists and the summary dict as interpolated into
the prompt (their exact text never influences control flow). -/
structure CommEnv where
  llm : LLMEnv
  pyFloat : ℚ → String
  pyStrList : List String → String
  pySummary : DamageSummary → String
  /-- Python `"{:.2f}".format` of a float. -/
  fmt2 : ℚ → String

/-- Python `repr` of a bool as interpolated by an f-string. -/
def pyBool (b : Bool) : String := if b then "True" else "False"

/-- f-string interpolation of an optional string (`None` or the bare text). -/
def pyOptStr : Option String → String
  | none => "None"
  | some s => s

/-- `_bulletify(items, max_n)`: strip, drop falsy entries, cap the list, and
render dashes — or the fixed no-findings bullet. -/
def bulletify (items : List String) (max_n : ℕ) : String :=
  let items := ((items.map String.trim).filter (fun x => x ≠ "")).take max_n
  if items.isEmpty then "- (Belirgin uyarı yok)"
  else String.intercalate "\n" (items.map (fun x => "- " ++ x))

/-- The mandatory closing disclaimer sentence of the fallback narrative. -/
def disclaimerStr : String :=
  "Not: Bu rapor ekspertiz yerine geçmez; ön bilgilendirme amaçlıdır."

/-- The templated LLM prompt of `generate_human_commentary` (an f-string in
the source; list/float/dict interpolations go through the Python renderings
of `CommEnv`). -/
def mkCommentaryPrompt (env : CommEnv) (vehicle_type scenario : String)
    (video_quality : VideoQualityResult) (coverage : CoverageResult)
    (damage : DamageResult) (damage_sev : String) (audio_level : Option String)
    (e_hints : List String) (conf_score : Option ℚ)
    (conf_level : Option String) : String :=
  String.intercalate "\n" [
    "Sen CARVIX araç ön-analiz asistanısın. Kullanıcıya \"ekspertiz yerine geçmez\" uyarısı ile profesyonel, anlaşılır ve satışa uygun bir rapor yorumu yaz.",
    "Kısa, net, kanıt temelli konuş. Kesin teşhis iddiası yok. Kullanıcıya bir sonraki adımları öner.",
    "",
    "Araç tipi: " ++ vehicle_type,
    "Senaryo: " ++ scenario,
    "",
    "Video kalite:",
    "- ok: " ++ pyBool video_quality.ok,
    "- süre(sn): " ++ env.pyFloat video_quality.duration_sec,
    "- çözünürlük: " ++ toString video_quality.width ++ "x" ++ toString video_quality.height,
    "- hints: " ++ env.pyStrList video_quality.hints,
    "",
    "Kapsama:",
    "- coverage_ratio: " ++ env.pyFloat coverage.coverage_ratio,
    "- hints: " ++ env.pyStrList coverage.hints,
    "",
    "Görsel hasar:",
    "- method: " ++ damage.method,
    "- severity: " ++ damage_sev,
    "- summary: " ++ env.pySummary damage.summary,
    "",
    "Motor sesi:",
    "- risk: " ++ pyOptStr audio_level,
    "- hints: " ++ env.pyStrList e_hints,
    "",
    "Güven skoru:",
    "- score: " ++ (match conf_score with
                    | none => "None"
                    | some q => env.pyFloat q),
    "- level: " ++ pyOptStr conf_level,
    "",
    "Çıktı formatı:",
    "1) 3-5 cümlelik genel değerlendirme",
    "2) \"Tespit Edilen Risk Sinyalleri\" altında maddeler",
    "3) \"Önerilen Sonraki Adımlar\" altında maddeler",
    "4) Sonda tek satır: \"" ++ disclaimerStr ++ "\""]

/-- The fixed next-steps bullet list of the fallback narrative. -/
def nextStepsList : List String :=
  ["Şüpheli bölgeleri araca gidince gün ışığında yakın plan kontrol edin (kapı altı, tampon köşesi, çamurluk, tavan).",
   "Kaput açıkken 5–10 sn rölanti sesi kaydı alın (içten yanmalı araçlarda).",
   "Satın alma öncesi mutlaka profesyonel ekspertiz ve OBD/şasi kontrolü yaptırın."]

/-- `generate_human_commentary(...)`: LLM attempt with deterministic template
fallback, translated from the source.  `damage.get("summary", {})` followed by
`.get("severity", "unknown")` maps the empty summary of the no-frame early
return to `"unknown"`; in this embedding the empty summary carries
`severity = ""`, which the default likewise maps to `"unknown"`. -/
def generate_human_commentary (env : CommEnv) (vehicle_type scenario : String)
    (video_quality : VideoQualityResult) (coverage : CoverageResult)
    (damage : DamageResult) (engine_audio : Option AudioResult)
    (confidence : Option ConfidenceResult) : CommentaryResult :=
  let v_hints := video_quality.hints
  let c_hints := coverage.hints
  let e_hints := (engine_audio.map (fun ea => ea.hints)).getD []
  let damage_sev :=
    if damage.summary.severity = "" then "unknown" else damage.summary.severity
  let audio_level : Option String :=
    match engine_audio with
    | some ea => if ea.ok && !ea.skipped then some ea.risk_level else none
    | none => none
  let conf_score : Option ℚ := confidence.map (fun c => c.confidence_score)
  let conf_level : Option String := confidence.map (fun c => c.confidence_level)
  let prompt := mkCommentaryPrompt env vehicle_type scenario video_quality
    coverage damage damage_sev audio_level e_hints conf_score conf_level
  let llm := call_llm_commentary env.llm prompt 25
  if (llm.getD "") ≠ "" then
    { ok := true, method := "llm", text := (llm.getD "").trim }
  else
    let parts : List String :=
      ["Bu ön analiz, " ++ vehicle_type ++ " için yüklenen video üzerinden görsel risk sinyallerini çıkarır ve (uygunsa) motor sesi için ek risk değerlendirmesi üretir. Görsel hasar sinyali seviyesi: **" ++ damage_sev.toUpper ++ "**."]
      ++ (match audio_level with
          | some l => ["Motor sesi risk seviyesi: **" ++ l.toUpper ++ "** (kesin teşhis değildir)."]
          | none => [])
      ++ (match conf_score, conf_level with
          | some cs, some cl =>
            if cl ≠ "" then
              ["Rapor güveni: **" ++ cl.toUpper ++ "** (Skor: " ++ env.pyFloat cs ++ "/100)."]
            else []
          | _, _ => [])
    let risk_bullets : List String :=
      (if damage.method = "yolo" then
        let labels := damage.summary.suspected_labels.take 5
        if labels.isEmpty then []
        else
          ["Modelin işaretlediği olası bölgeler: " ++
            String.intercalate ", "
              (labels.map (fun kv => kv.1 ++ " (x" ++ toString kv.2 ++ ")"))]
      else
        match damage.summary.signals_avg with
        | some sig =>
          ["Çizik benzeri sinyal: " ++ env.fmt2 sig.scratch_like ++
            " | Göçük benzeri sinyal: " ++ env.fmt2 sig.dent_like ++
            " | Boya/ton tutarsızlığı: " ++ env.fmt2 sig.repaint_like]
        | none => [])
      ++ v_hints.take 3 ++ c_hints.take 3 ++ e_hints.take 2
    let text :=
      String.intercalate "\n" parts
      ++ "\n\n**Tespit Edilen Risk Sinyalleri**\n" ++ bulletify risk_bullets 8
      ++ "\n\n**Önerilen Sonraki Adımlar**\n" ++ bulletify nextStepsList 6
      ++ "\n\n" ++ disclaimerStr
    { ok := true, method := "fallback", text := text }

/-- The enumerated upstream failure modes of the claim: missing credential,
raised network failure/timeout, non-success HTTP status, malformed payload. -/
def llmCallFails (env : LLMEnv) : Prop :=
  ((env.getenv "OPENAI_API_KEY").getD "").trim = "" ∨
  env.post = Except.error () ∨
  (∃ r, env.post = Except.ok r ∧ 300 ≤ r.status) ∨
  (∃ r, env.post = Except.ok r ∧ r.body = none)

/-- Under any of the enumerated failure modes, `call_llm_commentary` yields
no text. -/
theorem call_llm_commentary_none (env : LLMEnv) (prompt : String) (t : ℕ)
    (h : llmCallFails env) : call_llm_commentary env prompt t = none := by
  by_cases hkey : ((env.getenv "OPENAI_API_KEY").getD "").trim = ""
  · simp [call_llm_commentary, hkey]
  · rcases h with h | h | ⟨r, hr, hs⟩ | ⟨r, hr, hb⟩
    · exact absurd h hkey
    · simp [call_llm_commentary, hkey, h]
    · simp [call_llm_commentary, hkey, hr, hs]
    · rcases le_or_lt 300 r.status with hst | hst
      · simp [call_llm_commentary, hkey, hr, hst]
      · simp [call_llm_commentary, hkey, hr, not_le.mpr hst, hb]

/-- C5.  Whenever the external LLM call yields no text — missing credential,
raised network failure/timeout, non-success HTTP status, or malformed
payload — `generate_human_commentary` returns `method = "fallback"` with
non-empty text whose final characters are the mandatory disclaimer sentence
verbatim (hence the text contains it); the embedding is a total function, so
no exception can propagate. -/
theorem C5_llm_failure_fallback (env : CommEnv) (vt sc : String)
    (vq : VideoQualityResult) (cov : CoverageResult) (dmg : DamageResult)
    (ea : Option AudioResult) (conf : Option ConfidenceResult)
    (hfail : llmCallFails env.llm) :
    (generate_human_commentary env vt sc vq cov dmg ea conf).method = "fallback" ∧
    (generate_human_commentary env vt sc vq cov dmg ea conf).text ≠ "" ∧
    disclaimerStr.data <:+
      (generate_human_commentary env vt sc vq cov dmg ea conf).text.data := by
  have hgen : ∀ pr, call_llm_commentary env.llm pr 25 = none :=
    fun pr => call_llm_commentary_none env.llm pr 25 hfail
  have hsuf : disclaimerStr.data <:+
      (generate_human_commentary env vt sc vq cov dmg ea conf).text.data := by
    simp only [generate_human_commentary, hgen, Option.getD_none]
    rw [if_neg (by simp)]
    dsimp only
    rw [String.data_append]
    exact List.suffix_append _ _
  refine ⟨by simp [generate_human_commentary, hgen], ?_, hsuf⟩
  intro h
  rw [h] at hsuf
  have h2 := List.suffix_nil.mp hsuf
  exact absurd h2 (by decide)

/-- An LLM environment with no `OPENAI_API_KEY` in the process environment
(and a network that would fail anyway). -/
def llmEnvNoKey : LLMEnv := { getenv := fun _ => none, post := Except.error () }

/-- Commentary environment over `llmEnvNoKey` with arbitrary Python
renderings. -/
def commEnvNoKey : CommEnv :=
  { llm := llmEnvNoKey, pyFloat := fun _ => "0.0", pyStrList := fun _ => "[]",
    pySummary := fun _ => "summary", fmt2 := fun _ => "0.00" }

/-- C5, witness at a credential-less, network-failing environment and
concrete reports (the raised-timeout disjunct of `llmCallFails`). -/
theorem C5_llm_failure_fallback_witness :
    llmCallFails commEnvNoKey.llm ∧
    ((generate_human_commentary commEnvNoKey "car" "genel" vqAllGood covGood
        dmgHeuristic none none).method = "fallback" ∧
      (generate_human_commentary commEnvNoKey "car" "genel" vqAllGood covGood
        dmgHeuristic none none).text ≠ "" ∧
      disclaimerStr.data <:+
        (generate_human_commentary commEnvNoKey "car" "genel" vqAllGood covGood
          dmgHeuristic none none).text.data) :=
  ⟨Or.inr (Or.inl rfl),
    C5_llm_failure_fallback commEnvNoKey "car" "genel" vqAllGood covGood
      dmgHeuristic none none (Or.inr (Or.inl rfl))⟩
